import Mathlib

/-!
Shallow embedding of `src/main.py` (Gemini-with-Google-Search gateway).

The repository is a small HTTP gateway: it reads an API credential at
startup, constructs a provider client, and exposes one POST endpoint that
forwards a keyword to the provider (with a search-grounding tool enabled)
and reshapes the provider response into a fixed JSON schema, plus one GET
health endpoint.

Modelling choices:
* The provider SDK call `client.models.generate_content` is external; it is
  modelled as a function from the prompt string to `Except String
  ProviderResponse`, where `Except.error e` stands for a raised exception
  with message `e`.
* The SDK field `response.text` is a computed property that may itself
  raise while the response object is being read inside the `try` block, so
  it is modelled as `Except String String`.
* Python truthiness is modelled explicitly: `if response.candidates`
  is false for `None` and for the empty list; `if metadata.grounding_chunks`
  likewise; `if not GEMINI_API_KEY` is true for an absent variable and for
  the empty string.
* A raised `HTTPException`, and the module-level `raise` at startup, are
  modelled with `Except.error`.
-/

namespace MainPy

structure SearchSource where
  uri : String
  title : String
  deriving Repr, DecidableEq

structure SearchResponse where
  response : String
  source : List SearchSource
  deriving Repr, DecidableEq

structure PromptRequest where
  keyword : String
  deriving Repr

structure HTTPException where
  status_code : Nat
  detail : String
  deriving Repr, DecidableEq

/-- `chunk.web` on a grounding chunk: an optional web citation with a uri
and a title (`src/main.py` lines 83-87). -/
structure WebSource where
  uri : String
  title : String
  deriving Repr

structure GroundingChunk where
  web : Option WebSource
  deriving Repr

structure GroundingMetadata where
  grounding_chunks : Option (List GroundingChunk)
  deriving Repr

structure Candidate where
  grounding_metadata : Option GroundingMetadata
  deriving Repr

/-- The provider response object: an optional candidate list and the
computed `.text` property (which may raise while being read). -/
structure ProviderResponse where
  candidates : Option (List Candidate)
  text : Except String String

/-- The provider client handle built by `genai.Client(api_key=...)`. -/
structure Client where
  api_key : String
  deriving Repr

/-- The fatal message raised at `src/main.py` line 16 when the credential
is absent (or empty, by Python truthiness of `if not GEMINI_API_KEY`). -/
def missing_key_message : String :=
  "GEMINI_API_KEY 環境變數遺失。請檢查 .env 檔案或環境設定。"

/-- Module-level startup (`src/main.py` lines 12-23): read
`GEMINI_API_KEY` from the environment, raise if it is missing or falsy,
then construct the client, turning a construction failure into a fatal
`RuntimeError`.  `mk_client` models the external `genai.Client`
constructor. -/
def startup (gemini_api_key : Option String)
    (mk_client : String → Except String Client) : Except String Client :=
  match gemini_api_key with
  | none => Except.error missing_key_message
  | some key =>
    if key.isEmpty then Except.error missing_key_message
    else
      match mk_client key with
      | Except.error e => Except.error ("無法初始化 Gemini Client: " ++ e)
      | Except.ok c => Except.ok c

/-- The fixed-template prompt built at `src/main.py` lines 55-58. -/
def build_prompt (keyword : String) : String :=
  "請針對關鍵字『" ++ keyword ++ "』，搜尋並總結其最近一個月內最相關的新聞與事件。" ++
    "請只回傳新聞標題以及新聞網址，並將標題和網址整理成一個Markdown格式的列表。"

/-- The citation loop of `src/main.py` lines 82-88: walk the chunks,
appending `(uri, title)` for each chunk whose `web` field is set, into the
per-call `source_list` accumulator. -/
def process_chunks (chunks : List GroundingChunk) : List SearchSource :=
  chunks.foldl
    (fun source_list chunk =>
      match chunk.web with
      | some w => source_list ++ [⟨w.uri, w.title⟩]
      | none => source_list)
    []

/-- Citation handling of `src/main.py` lines 75-88: `source_list = []`,
then the guarded walk of
`response.candidates[0].grounding_metadata.grounding_chunks`.  The
`if chunks.isEmpty` branch mirrors Python falsiness of an empty
`grounding_chunks` list in `if metadata.grounding_chunks`. -/
def extract_sources (response : ProviderResponse) : List SearchSource :=
  match response.candidates with
  | some (candidate :: _) =>
    match candidate.grounding_metadata with
    | some metadata =>
      match metadata.grounding_chunks with
      | some chunks => if chunks.isEmpty then [] else process_chunks chunks
      | none => []
    | none => []
  | _ => []

/-- Core logic `generate_grounded_content` (`src/main.py` lines 50-99).
`generate_content` models the external provider call made inside the
`try` block with the search-grounding tool enabled; both a raised provider
error and a raised extraction error are caught by the single `except` and
turned into an `HTTPException` with status 500 and a detail embedding the
original message. -/
def generate_grounded_content
    (generate_content : String → Except String ProviderResponse)
    (keyword : String) : Except HTTPException SearchResponse :=
  match generate_content (build_prompt keyword) with
  | Except.error e => Except.error ⟨500, "Gemini API 處理錯誤: " ++ e⟩
  | Except.ok response =>
    let source_list := extract_sources response
    match response.text with
    | Except.error e => Except.error ⟨500, "Gemini API 處理錯誤: " ++ e⟩
    | Except.ok t => Except.ok ⟨t, source_list⟩

/-- POST `/search-news` endpoint (`src/main.py` lines 103-110): forwards
`request.keyword` to the core logic. -/
def search_news_api
    (generate_content : String → Except String ProviderResponse)
    (request : PromptRequest) : Except HTTPException SearchResponse :=
  generate_grounded_content generate_content request.keyword

/-- GET `/callback` endpoint (`src/main.py` lines 112-114): the pair of
the HTTP status and the body, a one-entry JSON object. -/
def read_root : Nat × List (String × String) :=
  (200, [("status", "OK")])

/-- One spec-side citation entry for a chunk: `some (uri, title)` when the
chunk exposes a web citation, `none` otherwise. -/
def chunk_to_source (chunk : GroundingChunk) : Option SearchSource :=
  chunk.web.map (fun w => ⟨w.uri, w.title⟩)

/-- Spec-side description of the source list (refinement target, written
from the spec words): walk
`response.candidates[0].grounding_metadata.grounding_chunks` if present
and keep, in provider order, one `(uri, title)` entry per chunk exposing a
web citation, skipping the rest. -/
def spec_sources (response : ProviderResponse) : List SearchSource :=
  ((((response.candidates.bind List.head?).bind
      Candidate.grounding_metadata).bind
      GroundingMetadata.grounding_chunks).getD []).filterMap chunk_to_source

theorem process_chunks_foldl (chunks : List GroundingChunk)
    (acc : List SearchSource) :
    chunks.foldl
      (fun source_list chunk =>
        match chunk.web with
        | some w => source_list ++ [⟨w.uri, w.title⟩]
        | none => source_list)
      acc = acc ++ chunks.filterMap chunk_to_source := by
  induction chunks generalizing acc with
  | nil => simp
  | cons chunk rest ih =>
    cases hweb : chunk.web with
    | none => simp [List.foldl_cons, hweb, ih, chunk_to_source]
    | some w => simp [List.foldl_cons, hweb, ih, chunk_to_source]

theorem process_chunks_eq (chunks : List GroundingChunk) :
    process_chunks chunks = chunks.filterMap chunk_to_source := by
  simpa using process_chunks_foldl chunks []

theorem extract_sources_eq_spec (r : ProviderResponse) :
    extract_sources r = spec_sources r := by
  unfold extract_sources spec_sources
  cases hc : r.candidates with
  | none => simp
  | some cs =>
    cases cs with
    | nil => simp
    | cons c rest =>
      cases hm : c.grounding_metadata with
      | none => simp [hm]
      | some m =>
        cases hk : m.grounding_chunks with
        | none => simp [hm, hk]
        | some chunks =>
          cases chunks with
          | nil => simp [hm, hk]
          | cons ch more => simp [hm, hk, process_chunks_eq]

theorem error_status_500
    (gc : String → Except String ProviderResponse) (keyword : String)
    (err : HTTPException)
    (h : generate_grounded_content gc keyword = Except.error err) :
    err.status_code = 500 := by
  unfold generate_grounded_content at h
  split at h
  · injection h with h2
    subst h2
    rfl
  · dsimp only at h
    split at h
    · injection h with h2
      subst h2
      rfl
    · exact Except.noConfusion h

/-- C1: for every successful provider call (and readable text), the body's
`response` field equals the provider text and its `source` field is, in
provider-returned chunk order, exactly one `(uri, title)` entry per
grounding chunk exposing a web citation, chunks without one skipped
(`spec_sources` is that spec-side description). -/
theorem success_citations_match_spec
    (gc : String → Except String ProviderResponse)
    (keyword : String) (r : ProviderResponse) (t : String)
    (hcall : gc (build_prompt keyword) = Except.ok r)
    (htext : r.text = Except.ok t) :
    generate_grounded_content gc keyword = Except.ok ⟨t, spec_sources r⟩ := by
  simp [generate_grounded_content, hcall, htext, extract_sources_eq_spec]

/-- Spec example response: text with two news lines and two grounding
chunks carrying `(uri1, title1)` and `(uri2, title2)`. -/
def example_response : ProviderResponse where
  candidates := some [⟨some ⟨some [⟨some ⟨"uri1", "title1"⟩⟩, ⟨some ⟨"uri2", "title2"⟩⟩]⟩⟩]
  text := Except.ok "- News A (url1)\n- News B (url2)"

theorem success_citations_match_spec_witness :
    generate_grounded_content (fun _ => Except.ok example_response)
        "generative AI" =
      Except.ok ⟨"- News A (url1)\n- News B (url2)",
        [⟨"uri1", "title1"⟩, ⟨"uri2", "title2"⟩]⟩ :=
  success_citations_match_spec (fun _ => Except.ok example_response)
    "generative AI" example_response "- News A (url1)\n- News B (url2)" rfl rfl

/-- C2: if the provider call raises with message `e`, the endpoint result
is an HTTP 500 whose `detail` embeds `e`; no success (not even partial) is
returned, and the outcome depends only on the value of the single provider
invocation at the built prompt (no retry). -/
theorem provider_error_maps_to_500
    (gc : String → Except String ProviderResponse) (keyword e : String)
    (hcall : gc (build_prompt keyword) = Except.error e) :
    (∃ p, generate_grounded_content gc keyword =
        Except.error ⟨500, p ++ e⟩) ∧
    (∀ o, generate_grounded_content gc keyword ≠ Except.ok o) ∧
    (∀ gc' : String → Except String ProviderResponse,
      gc' (build_prompt keyword) = gc (build_prompt keyword) →
        generate_grounded_content gc' keyword =
          generate_grounded_content gc keyword) := by
  refine ⟨⟨"Gemini API 處理錯誤: ", ?_⟩, ?_, ?_⟩
  · simp [generate_grounded_content, hcall]
  · intro o h
    simp [generate_grounded_content, hcall] at h
  · intro gc' hagree
    simp only [generate_grounded_content, hagree]

theorem provider_error_maps_to_500_witness :
    (∃ p, generate_grounded_content
        (fun _ => Except.error "boom") "ai" = Except.error ⟨500, p ++ "boom"⟩) ∧
    (∀ o, generate_grounded_content
        (fun _ => Except.error "boom") "ai" ≠ Except.ok o) :=
  ⟨(provider_error_maps_to_500 (fun _ => Except.error "boom") "ai" "boom" rfl).1,
   (provider_error_maps_to_500 (fun _ => Except.error "boom") "ai" "boom" rfl).2.1⟩

/-- C3: for every keyword and every provider behaviour, the endpoint
result is either an HTTP 500 error or a success body that has a string
`response` field and a list `source` field — both always present. -/
theorem result_body_well_formed
    (gc : String → Except String ProviderResponse) (keyword : String) :
    (∃ err, generate_grounded_content gc keyword = Except.error err ∧
        err.status_code = 500) ∨
    (∃ (t : String) (s : List SearchSource),
        generate_grounded_content gc keyword = Except.ok ⟨t, s⟩) := by
  cases hcall : gc (build_prompt keyword) with
  | error e =>
    exact Or.inl ⟨⟨500, "Gemini API 處理錯誤: " ++ e⟩,
      by simp [generate_grounded_content, hcall], rfl⟩
  | ok r =>
    cases htext : r.text with
    | error e =>
      exact Or.inl ⟨⟨500, "Gemini API 處理錯誤: " ++ e⟩,
        by simp [generate_grounded_content, hcall, htext], rfl⟩
    | ok t =>
      exact Or.inr ⟨t, extract_sources r,
        by simp [generate_grounded_content, hcall, htext]⟩

/-- C4: when the provider response has no candidates, no grounding
metadata, or no grounding chunks, the body is the provider text with an
empty `source` list. -/
theorem no_grounding_gives_empty_source
    (gc : String → Except String ProviderResponse)
    (keyword : String) (r : ProviderResponse) (t : String)
    (hcall : gc (build_prompt keyword) = Except.ok r)
    (htext : r.text = Except.ok t)
    (hempty : r.candidates = none ∨ r.candidates = some [] ∨
      ∃ c cs, r.candidates = some (c :: cs) ∧
        (c.grounding_metadata = none ∨
          ∃ m, c.grounding_metadata = some m ∧
            (m.grounding_chunks = none ∨ m.grounding_chunks = some []))) :
    generate_grounded_content gc keyword = Except.ok ⟨t, []⟩ := by
  rcases hempty with hc | hc | ⟨c, cs, hc, hm⟩
  · simp [generate_grounded_content, hcall, htext, extract_sources, hc]
  · simp [generate_grounded_content, hcall, htext, extract_sources, hc]
  · rcases hm with hm | ⟨m, hm, hk⟩
    · simp [generate_grounded_content, hcall, htext, extract_sources, hc, hm]
    · rcases hk with hk | hk
      · simp [generate_grounded_content, hcall, htext, extract_sources, hc, hm, hk]
      · simp [generate_grounded_content, hcall, htext, extract_sources, hc, hm, hk]

theorem no_grounding_gives_empty_source_witness :
    generate_grounded_content
        (fun _ => Except.ok ⟨none, Except.ok "no news"⟩) "quantum" =
      Except.ok ⟨"no news", []⟩ :=
  no_grounding_gives_empty_source
    (fun _ => Except.ok ⟨none, Except.ok "no news"⟩) "quantum"
    ⟨none, Except.ok "no news"⟩ "no news" rfl rfl (Or.inl rfl)

/-- C5: each invocation builds its `source` list from its own provider
response alone: for any two invocations with any keywords and provider
behaviours, each output's `source` is exactly `extract_sources` of that
invocation's own response, so no entry of one call can appear in the
other's list unless its own response contains it. -/
theorem source_lists_independent
    (gc₁ gc₂ : String → Except String ProviderResponse)
    (k₁ k₂ : String) (r₁ r₂ : ProviderResponse) (t₁ t₂ : String)
    (h₁ : gc₁ (build_prompt k₁) = Except.ok r₁)
    (ht₁ : r₁.text = Except.ok t₁)
    (h₂ : gc₂ (build_prompt k₂) = Except.ok r₂)
    (ht₂ : r₂.text = Except.ok t₂) :
    generate_grounded_content gc₁ k₁ = Except.ok ⟨t₁, extract_sources r₁⟩ ∧
    generate_grounded_content gc₂ k₂ = Except.ok ⟨t₂, extract_sources r₂⟩ := by
  constructor
  · simp [generate_grounded_content, h₁, ht₁]
  · simp [generate_grounded_content, h₂, ht₂]

theorem source_lists_independent_witness :
    generate_grounded_content
        (fun _ => Except.ok ⟨some [⟨some ⟨some [⟨some ⟨"u1", "s1"⟩⟩]⟩⟩], Except.ok "a"⟩)
        "cats" =
      Except.ok ⟨"a", [⟨"u1", "s1"⟩]⟩ ∧
    generate_grounded_content
        (fun _ => Except.ok ⟨some [⟨some ⟨some [⟨some ⟨"u2", "s2"⟩⟩]⟩⟩], Except.ok "b"⟩)
        "dogs" =
      Except.ok ⟨"b", [⟨"u2", "s2"⟩]⟩ :=
  source_lists_independent
    (fun _ => Except.ok ⟨some [⟨some ⟨some [⟨some ⟨"u1", "s1"⟩⟩]⟩⟩], Except.ok "a"⟩)
    (fun _ => Except.ok ⟨some [⟨some ⟨some [⟨some ⟨"u2", "s2"⟩⟩]⟩⟩], Except.ok "b"⟩)
    "cats" "dogs"
    ⟨some [⟨some ⟨some [⟨some ⟨"u1", "s1"⟩⟩]⟩⟩], Except.ok "a"⟩
    ⟨some [⟨some ⟨some [⟨some ⟨"u2", "s2"⟩⟩]⟩⟩], Except.ok "b"⟩
    "a" "b" rfl rfl rfl rfl

/-- C6: if the credential is absent from the environment, or the provider
client constructor raises, startup ends in a raised fatal error (the
process never reaches serving). -/
theorem startup_failure_is_fatal
    (env : Option String) (mk_client : String → Except String Client)
    (h : env = none ∨ ∃ k e, env = some k ∧ mk_client k = Except.error e) :
    ∃ msg, startup env mk_client = Except.error msg := by
  rcases h with h | ⟨k, e, henv, hmk⟩
  · exact ⟨missing_key_message, by simp [h, startup]⟩
  · by_cases hk : k.isEmpty
    · exact ⟨missing_key_message, by simp [henv, startup, hk]⟩
    · exact ⟨"無法初始化 Gemini Client: " ++ e,
        by simp [henv, startup, hk, hmk]⟩

theorem startup_failure_is_fatal_witness :
    (∃ msg, startup none (fun k => Except.ok ⟨k⟩) = Except.error msg) ∧
    (∃ msg, startup (some "sk-abc") (fun _ => Except.error "bad network") =
        Except.error msg) :=
  ⟨startup_failure_is_fatal none (fun k => Except.ok ⟨k⟩) (Or.inl rfl),
   startup_failure_is_fatal (some "sk-abc") (fun _ => Except.error "bad network")
     (Or.inr ⟨"sk-abc", "bad network", rfl, rfl⟩)⟩

/-- C7: the empty keyword is not rejected by the core logic: the
degenerate prompt `build_prompt empty` is built and the provider is
invoked on it, a successful call yields a 200 body (never an error), and
any error the core logic does produce carries status 500, never 4xx. -/
theorem empty_keyword_not_rejected
    (gc : String → Except String ProviderResponse)
    (r : ProviderResponse) (t : String)
    (hcall : gc (build_prompt "") = Except.ok r)
    (htext : r.text = Except.ok t) :
    generate_grounded_content gc "" = Except.ok ⟨t, extract_sources r⟩ ∧
    (∀ err, generate_grounded_content gc "" ≠ Except.error err) ∧
    (∀ (gc' : String → Except String ProviderResponse) err,
      generate_grounded_content gc' "" = Except.error err →
        err.status_code = 500) := by
  have hok : generate_grounded_content gc "" =
      Except.ok ⟨t, extract_sources r⟩ := by
    simp [generate_grounded_content, hcall, htext]
  refine ⟨hok, ?_, ?_⟩
  · intro err h
    rw [hok] at h
    exact Except.noConfusion h
  · intro gc' err h
    exact error_status_500 gc' "" err h

theorem empty_keyword_not_rejected_witness :
    generate_grounded_content
        (fun _ => Except.ok ⟨none, Except.ok "degenerate"⟩) "" =
      Except.ok ⟨"degenerate", []⟩ :=
  (empty_keyword_not_rejected
    (fun _ => Except.ok ⟨none, Except.ok "degenerate"⟩)
    ⟨none, Except.ok "degenerate"⟩ "degenerate" rfl rfl).1

/-- C8: the GET `/callback` endpoint returns status 200 with the body
mapping "status" to "OK"; it takes no input and reads no state, so the
result is this constant unconditionally. -/
theorem callback_always_ok : read_root = (200, [("status", "OK")]) := rfl

/-- C9: an exception raised while reading fields of a successfully
returned provider response (here the `.text` property) is caught by the
same `except` block and mapped to the same HTTP 500 whose detail embeds
the raised message. -/
theorem extraction_error_maps_to_500
    (gc : String → Except String ProviderResponse)
    (keyword : String) (r : ProviderResponse) (e : String)
    (hcall : gc (build_prompt keyword) = Except.ok r)
    (htext : r.text = Except.error e) :
    ∃ p, generate_grounded_content gc keyword =
      Except.error ⟨500, p ++ e⟩ := by
  refine ⟨"Gemini API 處理錯誤: ", ?_⟩
  simp [generate_grounded_content, hcall, htext]

theorem extraction_error_maps_to_500_witness :
    ∃ p, generate_grounded_content
        (fun _ => Except.ok ⟨none, Except.error "no parts"⟩) "llm" =
      Except.error ⟨500, p ++ "no parts"⟩ :=
  extraction_error_maps_to_500
    (fun _ => Except.ok ⟨none, Except.error "no parts"⟩) "llm"
    ⟨none, Except.error "no parts"⟩ "no parts" rfl rfl

/-- C10: a credential present but equal to the empty string behaves
exactly like an absent credential: startup fails with the missing-key
error, and the client constructor is never consulted (the result does not
depend on it). -/
theorem empty_credential_like_absent
    (mk_client mk_client' : String → Except String Client) :
    startup (some "") mk_client = startup none mk_client' ∧
    startup (some "") mk_client = Except.error missing_key_message := by
  constructor
  · rfl
  · rfl

end MainPy
